import Mathlib

/-!
Verification of the SegurosAutos insurance-quotation engine.

Shallow embedding of the Python sources:
  * `pdf_parser.py`   — classifier, financial normalizer, per-provider extractors;
  * `pdf_parser_ai.py` — remote-AI extraction backend (record assembly part);
  * `app.py`          — batch assembler (overrides, column suppression).

Modelling conventions:
  * Python `float` is modelled by `ℚ`; binary floating-point rounding is not
    modelled (where the spec speaks of "within one cent" the rational model is
    exact, which is inside the stated tolerance).
  * Python strings are Lean `String`s; `x in y` is substring containment;
    `str.upper()` is modelled for ASCII letters plus the Latin accented
    letters that occur in the brand tokens.
  * Python dicts are association lists (`Rec`) with insertion-order
    semantics: overwriting keeps the key position, new keys are appended —
    exactly the observable behaviour of `dict` used by the sources.
  * Text extraction (PyMuPDF) and the regex searches are environmental: each
    extractor is parameterised by the optional capture results of its regex
    rules, and builds its record from them exactly as the source does.
-/

attribute [local semireducible] Rat.mul Rat.add Rat.sub Rat.inv

/-- Dictionary model: association list of string keys and string values. -/
abbrev Rec : Type := List (String × String)

/-- Model of `d[k]` / `d.get(k)`: value at the first occurrence of key `k`. -/
def getVal : Rec → String → Option String
  | [], _ => none
  | (k2, v2) :: rest, k => if k2 == k then some v2 else getVal rest k

/-- Model of `k in d`. -/
def hasKey : Rec → String → Bool
  | [], _ => false
  | (k2, _) :: rest, k => k2 == k || hasKey rest k

/-- Model of `d[k] = v`: overwrite in place, append if absent. -/
def setVal : Rec → String → String → Rec
  | [], k, v => [(k, v)]
  | (k2, v2) :: rest, k, v => if k2 == k then (k, v) :: rest else (k2, v2) :: setVal rest k v

/-- Model of `d.setdefault(k, v)`. -/
def setDefault (r : Rec) (k v : String) : Rec :=
  if hasKey r k then r else r ++ [(k, v)]

/-- Model of `d.update(u)`: sequential assignment of every pair of `u`. -/
def updateRec (r : Rec) (u : Rec) : Rec :=
  u.foldl (fun acc p => setVal acc p.1 p.2) r

/-- Does `pat` occur at the head of `s`? -/
def startsWith : List Char → List Char → Bool
  | [], _ => true
  | _ :: _, [] => false
  | a :: as, b :: bs => a == b && startsWith as bs

/-- Does `pat` occur somewhere in `s`? -/
def hasSub (pat : List Char) : List Char → Bool
  | [] => startsWith pat []
  | s@(_ :: rest) => startsWith pat s || hasSub pat rest

/-- Model of Python `pat in s` on strings (substring containment). -/
def strContains (s pat : String) : Bool :=
  hasSub pat.data s.data

/-- Model of `str.upper()` on one character: ASCII letters plus the Latin
accented letters appearing in the provider brand tokens. -/
def upChar (c : Char) : Char :=
  match c with
  | 'á' => 'Á'
  | 'é' => 'É'
  | 'í' => 'Í'
  | 'ó' => 'Ó'
  | 'ú' => 'Ú'
  | 'ñ' => 'Ñ'
  | 'ü' => 'Ü'
  | _ => c.toUpper

/-- Model of `str.upper()`. -/
def pyUpper (s : String) : String :=
  ⟨s.data.map upChar⟩

/-- Numeric value of a digit run (most significant first). -/
def digitsVal (l : List Char) : ℕ :=
  l.foldl (fun acc c => 10 * acc + (c.toNat - 48)) 0

/-- Model of Python `float(s)` on plain decimal notation (optional sign,
digit run, optional fractional part).  Exponent notation, `inf`/`nan` and
underscore separators are outside the model; the amounts handled by this
program are plain decimals. -/
def parseDecimalCore (l : List Char) : Option ℚ :=
  let ip := l.takeWhile (fun c => c.isDigit)
  let rest := l.dropWhile (fun c => c.isDigit)
  match rest with
  | [] => if ip.isEmpty then none else some (digitsVal ip)
  | '.' :: fp =>
      if fp.all (fun c => c.isDigit) && !(ip.isEmpty && fp.isEmpty) then
        some ((digitsVal ip : ℚ) + (digitsVal fp : ℚ) / (10 ^ fp.length))
      else none
  | _ => none

/-- Signed decimal parse (see `parseDecimalCore`). -/
def parseDecimal : List Char → Option ℚ
  | '-' :: rest => (parseDecimalCore rest).map (fun q => -q)
  | '+' :: rest => parseDecimalCore rest
  | l => parseDecimalCore l

/-- Model of `str.strip()`: drop whitespace from both ends. -/
def pyStrip (l : List Char) : List Char :=
  ((l.dropWhile (fun c => c.isWhitespace)).reverse.dropWhile (fun c => c.isWhitespace)).reverse

/-- Embedding of `_to_number` (pdf_parser.py:95): `None`/empty → absent;
strip `$`, `,`, spaces; parse as decimal; parse failure → absent. -/
def to_number (amount : Option String) : Option ℚ :=
  match amount with
  | none => none
  | some a =>
      if a = "" then none
      else parseDecimal
        ((pyStrip a.data).filter (fun c => !(c == '$' || c == ',' || c == ' ')))

/-- Groups of at most three characters, taken from a reversed digit list. -/
def chunk3 : List Char → List (List Char)
  | [] => [[]]
  | [a] => [[a]]
  | [a, b] => [[a, b]]
  | [a, b, c] => [[a, b, c]]
  | a :: b :: c :: rest => [a, b, c] :: chunk3 rest

/-- Insert thousands separators into a digit run. -/
def withCommas (digits : List Char) : List Char :=
  (List.intersperse [','] (((chunk3 digits.reverse).map List.reverse).reverse)).flatten

/-- Embedding of `_format_currency` (pdf_parser.py:105): the Python
`f"{value:,.2f}"` format — two decimals, thousands separators, no symbol.
The value is rounded to cents (the half-to-even tie behaviour of binary
floats at exact half-cents is not modelled). -/
def format_currency (q : ℚ) : String :=
  let cents : ℤ := round (q * 100)
  let sign : String := if cents < 0 then "-" else ""
  let a : ℕ := cents.natAbs
  let ip : ℕ := a / 100
  let fp : ℕ := a % 100
  let fpStr : String := (if fp < 10 then "0" else "") ++ toString fp
  sign ++ String.mk (withCommas (toString ip).data) ++ "." ++ fpStr

/-- Default of `min_total_threshold` in `_compute_financials`. -/
def min_total_threshold : ℚ := 1000

/-- Default of `recargos_cap` in `_compute_financials`. -/
def recargos_cap : ℚ := 2000

/-- Embedding of the net-premium choice in `_compute_financials`
(pdf_parser.py:122-131): prefer the parsed Prima Neta when above the
threshold, else the parsed Prima Total when above the threshold, else 0. -/
def chosen_neta (pnRaw ptRaw : Option String) : ℚ :=
  let pn := to_number pnRaw
  let pt := to_number ptRaw
  if pn.any (fun x => decide (min_total_threshold < x)) then pn.getD 0
  else if pt.any (fun x => decide (min_total_threshold < x)) then pt.getD 0
  else 0

/-- Embedding of the surcharge normalization in `_compute_financials`
(pdf_parser.py:132-135): absent/unparsable → 0; above the cap → 0. -/
def rec_num (recargosRaw : Option String) : ℚ :=
  let r0 := (to_number recargosRaw).getD 0
  if recargos_cap < r0 then 0 else r0

/-- Embedding of the fee normalization in `_compute_financials`
(pdf_parser.py:137): absent/unparsable → 0. -/
def der_num (derechosRaw : Option String) : ℚ :=
  (to_number derechosRaw).getD 0

/-- Embedding of the IVA computation in `_compute_financials`
(pdf_parser.py:139). -/
def iva_num (pn pt r d : Option String) : ℚ :=
  (chosen_neta pn pt + rec_num r + der_num d) * (16 / 100)

/-- Embedding of the Prima Total computation in `_compute_financials`
(pdf_parser.py:140). -/
def total_num (pn pt r d : Option String) : ℚ :=
  chosen_neta pn pt + rec_num r + der_num d + iva_num pn pt r d

/-- Embedding of `_compute_financials` (pdf_parser.py:112-148): the
returned five-field dictionary with its formatting rules. -/
def compute_financials (pn pt r d : Option String) : Rec :=
  [("Prima Neta",
      if 0 < chosen_neta pn pt then "$" ++ format_currency (chosen_neta pn pt) else "N/A"),
   ("Recargos",
      if 0 < rec_num r then "$" ++ format_currency (rec_num r) else "$ 0"),
   ("Derechos de Póliza",
      if 0 < der_num d then "$" ++ format_currency (der_num d) else "N/A"),
   ("IVA", "$" ++ format_currency (iva_num pn pt r d)),
   ("Prima Total",
      if 0 < total_num pn pt r d then "$" ++ format_currency (total_num pn pt r d) else "N/A")]

/-- Embedding of `identify_company` (pdf_parser.py:195-220): ordered
decision list over the upper-cased text. -/
def identify_company (text : String) : Option String :=
  let u := pyUpper text
  if strContains u "ATLAS" && !strContains u "SEGUROS ATLAS" then some "Atlas"
  else if strContains u "ANA" && !strContains u "HDI" && !strContains u "ATLAS"
          && !strContains u "QUALITAS" then some "ANA"
  else if strContains u "HDI SEGUROS" || strContains u "HDI" then some "HDI"
  else if strContains u "QUÁLITAS" || strContains u "QUALITAS" then some "Qualitas"
  else none

/-- Regex capture environment for `parse_hdi` (pdf_parser.py:222-289): one
optional capture per anchor/pattern rule of the HDI rule list.  The text
searches themselves (PyMuPDF text plus `re`) are environmental; the record
assembly below is the embedded code. -/
structure HdiEnv where
  vehicle : String
  prima_total : Option String
  prima_neta : Option String
  recargos : Option String
  derechos : Option String
  dm : Option String
  rt : Option String
  rc : Option String
  gmo : Option String
  al : Option String
  av : Option String
  ac : Option String
  rcc : Option String

/-- Embedding of `parse_hdi` (pdf_parser.py:222-289): record assembly from
the capture environment, in source order. -/
def parse_hdi (e : HdiEnv) : Rec :=
  let r : Rec := [("company", "HDI Seguros")]
  let r := setVal r "vehicle_name" e.vehicle
  let r := updateRec r (compute_financials e.prima_neta e.prima_total e.recargos e.derechos)
  let r := setVal r "Forma de Pago" "CONTADO"
  let r := setVal r "Daños Materiales" (match e.dm with | some a => "$" ++ a | none => "N/A")
  let r := setVal r "Robo Total" (match e.rt with | some a => "$" ++ a | none => "N/A")
  let r := setVal r "Responsabilidad Civil" (match e.rc with | some a => "$" ++ a | none => "N/A")
  let r := setVal r "Gastos Medicos Ocupantes" (match e.gmo with | some a => "$" ++ a | none => "N/A")
  let r := setVal r "Asistencia Legal" (match e.al with | some a => a | none => "N/A")
  let r := setVal r "Asistencia Viajes" (match e.av with | some a => a | none => "N/A")
  let r := setVal r "Accidente al conductor" (match e.ac with | some a => "$" ++ a | none => "N/A")
  let r := setVal r "Responsabilidad civil catastrofica" (match e.rcc with | some a => a | none => "N/A")
  let r := setVal r "Desbielamiento por agua al motor" "N/A"
  r

/-- Regex capture environment for `parse_qualitas` (pdf_parser.py:291-358). -/
structure QualEnv where
  vehicle : String
  prima_total : Option String
  prima_neta : Option String
  recargos : Option String
  derechos : Option String
  dm : Option String
  rt : Option String
  rc : Option String
  gmo : Option String
  al : Option String
  av : Option String
  ac : Option String
  rcc : Option String

/-- Embedding of `parse_qualitas` (pdf_parser.py:291-358). -/
def parse_qualitas (e : QualEnv) : Rec :=
  let r : Rec := [("company", "Qualitas")]
  let r := setVal r "vehicle_name" e.vehicle
  let r := updateRec r (compute_financials e.prima_neta e.prima_total e.recargos e.derechos)
  let r := setVal r "Forma de Pago" "CONTADO"
  let r := setVal r "Daños Materiales" (match e.dm with | some a => "$" ++ a | none => "N/A")
  let r := setVal r "Robo Total" (match e.rt with | some a => "$" ++ a | none => "N/A")
  let r := setVal r "Responsabilidad Civil" (match e.rc with | some a => "$" ++ a | none => "N/A")
  let r := setVal r "Gastos Medicos Ocupantes" (match e.gmo with | some a => "$" ++ a | none => "N/A")
  let r := setVal r "Asistencia Legal" (match e.al with | some a => a | none => "N/A")
  let r := setVal r "Asistencia Viajes" (match e.av with | some a => a | none => "N/A")
  let r := setVal r "Accidente al conductor" (match e.ac with | some a => "$" ++ a | none => "N/A")
  let r := setVal r "Responsabilidad civil catastrofica" (match e.rcc with | some a => "$" ++ a | none => "N/A")
  let r := setVal r "Desbielamiento por agua al motor" "N/A"
  r

/-- Regex capture environment for `parse_ana` (pdf_parser.py:360-424).
`fp` models the stripped `FORMA DE PAGO` capture; `dam` the
`DESBIELAMIENTO POR AGUA` capture. -/
structure AnaEnv where
  vehicle : String
  prima_total : Option String
  prima_neta : Option String
  recargos : Option String
  derechos : Option String
  fp : Option String
  dm : Option String
  rt : Option String
  rc : Option String
  gmo : Option String
  al : Option String
  ac : Option String
  rcc : Option String
  dam : Option String

/-- Embedding of `parse_ana` (pdf_parser.py:360-424). -/
def parse_ana (e : AnaEnv) : Rec :=
  let r : Rec := [("company", "ANA Seguros")]
  let r := setVal r "vehicle_name" e.vehicle
  let r := updateRec r (compute_financials e.prima_neta e.prima_total e.recargos e.derechos)
  let r := setVal r "Forma de Pago" (match e.fp with | some s => s | none => "N/A")
  let r := setVal r "Daños Materiales" (match e.dm with | some a => "$" ++ a | none => "N/A")
  let r := setVal r "Robo Total" (match e.rt with | some a => "$" ++ a | none => "N/A")
  let r := setVal r "Responsabilidad Civil" (match e.rc with | some a => "$" ++ a | none => "N/A")
  let r := setVal r "Gastos Medicos Ocupantes" (match e.gmo with | some a => "$" ++ a | none => "N/A")
  let r := setVal r "Asistencia Legal" (match e.al with | some a => "$" ++ a | none => "N/A")
  let r := setVal r "Asistencia Viajes" "AMPARADA"
  let r := setVal r "Accidente al conductor" (match e.ac with | some a => "$" ++ a | none => "N/A")
  let r := setVal r "Responsabilidad civil catastrofica" (match e.rcc with | some a => "$" ++ a | none => "N/A")
  let r := setVal r "Desbielamiento por agua al motor" (match e.dam with | some a => "$" ++ a | none => "N/A")
  r

/-- Regex capture environment for `parse_atlas` (pdf_parser.py:426-491). -/
structure AtlasEnv where
  vehicle : String
  prima_total : Option String
  prima_neta : Option String
  recargos : Option String
  derechos : Option String
  fp : Option String
  dm : Option String
  rt : Option String
  rc : Option String
  gmo : Option String
  al : Option String
  ac : Option String
  rcc : Option String

/-- Embedding of `parse_atlas` (pdf_parser.py:426-491). -/
def parse_atlas (e : AtlasEnv) : Rec :=
  let r : Rec := [("company", "Seguros Atlas")]
  let r := setVal r "vehicle_name" e.vehicle
  let r := updateRec r (compute_financials e.prima_neta e.prima_total e.recargos e.derechos)
  let r := setVal r "Forma de Pago" (match e.fp with | some s => s | none => "CONTADO")
  let r := setVal r "Daños Materiales" (match e.dm with | some a => "$" ++ a | none => "N/A")
  let r := setVal r "Robo Total" (match e.rt with | some a => "$" ++ a | none => "N/A")
  let r := setVal r "Responsabilidad Civil" (match e.rc with | some a => "$" ++ a | none => "N/A")
  let r := setVal r "Gastos Medicos Ocupantes" (match e.gmo with | some a => "$" ++ a | none => "N/A")
  let r := setVal r "Asistencia Legal" (match e.al with | some a => "$" ++ a | none => "N/A")
  let r := setVal r "Asistencia Viajes" "AMPARADA"
  let r := setVal r "Accidente al conductor" (match e.ac with | some a => "$" ++ a | none => "N/A")
  let r := setVal r "Responsabilidad civil catastrofica" (match e.rcc with | some a => "$" ++ a | none => "N/A")
  let r := setVal r "Desbielamiento por agua al motor" "N/A"
  r

/-- Model of `str.capitalize()`: first char upper-cased, rest lower-cased
(ASCII plus the accented letters of `upChar`). -/
def lowChar (c : Char) : Char :=
  match c with
  | 'Á' => 'á'
  | 'É' => 'é'
  | 'Í' => 'í'
  | 'Ó' => 'ó'
  | 'Ú' => 'ú'
  | 'Ñ' => 'ñ'
  | 'Ü' => 'ü'
  | _ => c.toLower

/-- Model of `str.capitalize()`. -/
def pyCapitalize (s : String) : String :=
  match s.data with
  | [] => ""
  | c :: rest => ⟨upChar c :: rest.map lowChar⟩

/-- Embedding of `format_currency` (pdf_parser_ai.py:504-551): the AI
backend's value formatter — absent/empty/`N/A` → sentinel; non-numeric text
→ capitalization rules; numeric → `$`-prefixed two-decimal format. -/
def format_currency_ai (value : Option String) : String :=
  match value with
  | none => "N/A"
  | some v =>
      let vs : String := ⟨pyStrip v.data⟩
      if vs = "" || pyUpper vs = "N/A" then "N/A"
      else
        let check := vs.data.filter (fun c => !(c == '$' || c == ',' || c == ' '))
        match parseDecimal check with
        | none =>
            if pyUpper vs = "AMPARADA" then "Amparada"
            else if pyUpper vs = "NO AMPARADA" then "No Amparada"
            else pyCapitalize vs
        | some q => "$" ++ format_currency q

/-- Extraction result of the remote AI call for the HDI schema
(pdf_parser_ai.py:116-173): one optional string per schema field.  `none`
for the whole structure models a failed or empty remote response. -/
structure AiHdiExtract where
  vehicle_name : Option String
  Prima_Neta : Option String
  Recargos : Option String
  Derechos : Option String
  IVA : Option String
  Prima_Total : Option String
  Danos_Materiales : Option String
  Robo_Total : Option String
  Responsabilidad_Civil : Option String
  Gastos_Medicos : Option String
  Asistencia_Legal : Option String
  Asistencia_Viajes : Option String
  RC_Catastrofica : Option String

/-- Embedding of `extract_hdi_ai` (pdf_parser_ai.py:113-198): on remote
failure only the provider name is present; on success the record is built
field by field in source order. -/
def extract_hdi_ai (extracted : Option AiHdiExtract) : Rec :=
  match extracted with
  | none => [("company", "HDI Seguros")]
  | some ex =>
      let r : Rec := [("company", "HDI Seguros")]
      let r := setVal r "vehicle_name" (ex.vehicle_name.getD "")
      let r := setVal r "Prima Neta" (format_currency_ai ex.Prima_Neta)
      let r := setVal r "Recargos" (format_currency_ai ex.Recargos)
      let r := setVal r "Derechos de Póliza" (format_currency_ai ex.Derechos)
      let r := setVal r "IVA" (format_currency_ai ex.IVA)
      let r := setVal r "Prima Total" (format_currency_ai ex.Prima_Total)
      let r := setVal r "Forma de Pago" "CONTADO"
      let r := setVal r "Daños Materiales" (format_currency_ai ex.Danos_Materiales)
      let r := setVal r "Robo Total" (format_currency_ai ex.Robo_Total)
      let r := setVal r "Responsabilidad Civil" (format_currency_ai ex.Responsabilidad_Civil)
      let r := setVal r "Gastos Medicos Ocupantes" (format_currency_ai ex.Gastos_Medicos)
      let r := setVal r "Asistencia Legal" (ex.Asistencia_Legal.getD "N/A")
      let r := setVal r "Asistencia Viajes" (ex.Asistencia_Viajes.getD "N/A")
      let r := setVal r "Responsabilidad civil catastrofica" (format_currency_ai ex.RC_Catastrofica)
      let r := setVal r "Desbielamiento por agua al motor" "N/A"
      r

/-- Canonical field set of the extraction layer: the keys that every record
assembled by the rule-based extractors carries (provider name, vehicle
descriptor, coverage fields and the financial breakdown). -/
def canonicalFields : List String :=
  ["company", "vehicle_name", "Prima Neta", "Recargos", "Derechos de Póliza",
   "IVA", "Prima Total", "Forma de Pago", "Daños Materiales", "Robo Total",
   "Responsabilidad Civil", "Gastos Medicos Ocupantes", "Asistencia Legal",
   "Asistencia Viajes", "Accidente al conductor",
   "Responsabilidad civil catastrofica", "Desbielamiento por agua al motor"]

/-- Embedding of `MASTER_FIELDS` (app.py:25-45). -/
def MASTER_FIELDS : List String :=
  ["Forma de Pago", "Daños Materiales", "Deducible - DM", "Robo Total",
   "Deducible - RT", "Responsabilidad Civil", "Gastos Medicos Ocupantes",
   "Asistencia Legal", "Asistencia Viajes", "Atlas Cero Plus por PT de DM",
   "Accidente al conductor", "Responsabilidad civil catastrofica",
   "Desbielamiento por agua al motor", "Prima Neta", "Recargos",
   "Derechos de Póliza", "IVA", "Prima Total"]

/-- Embedding of the per-record override block of `process_files`
(app.py:96-119): defaults and fixed business overrides applied to one
parsed record. -/
def apply_overrides (row : Rec) : Rec :=
  let r := setDefault row "Asistencia Viajes" "AMPARADA"
  let r := setVal r "Atlas Cero Plus por PT de DM" "AMPARADA"
  let r := setVal r "Accidente al conductor" "$100,000.00"
  let r := if hasKey r "Daños Materiales" && ((getVal r "Daños Materiales").getD "" != "")
              && ((getVal r "Daños Materiales").getD "" != "N/A")
           then setVal r "Deducible - DM" "3%"
           else setVal r "Deducible - DM" "3%"
  let r := if hasKey r "Robo Total" && ((getVal r "Robo Total").getD "" != "")
              && ((getVal r "Robo Total").getD "" != "N/A")
           then setVal r "Deducible - RT" "5%"
           else setVal r "Deducible - RT" "5%"
  if getVal r "company" = some "Seguros Atlas"
  then setVal r "Desbielamiento por agua al motor" "AMPARADA"
  else r

/-- Embedding of the Atlas-presence test of `process_files` (app.py:147). -/
def has_atlas (parsed : List Rec) : Bool :=
  parsed.any (fun row => strContains (pyUpper ((getVal row "company").getD "")) "ATLAS")

/-- Embedding of the column-suppression filter of `process_files`
(app.py:148): the field list rendered by the interactive results view. -/
def dyn_fields (parsed : List Rec) : List String :=
  MASTER_FIELDS.filter (fun f => has_atlas parsed || decide (f ≠ "Atlas Cero Plus por PT de DM"))

/-- Embedding of the Atlas-presence test of `export_pdf_with_data`
(app.py:282). -/
def has_atlas_export (parsed : List Rec) : Bool :=
  parsed.any (fun row => strContains (pyUpper ((getVal row "company").getD "")) "ATLAS")

/-- Embedding of `dyn_fields_export` (app.py:283): the suppressed field
list computed by the export route. -/
def dyn_fields_export (parsed : List Rec) : List String :=
  MASTER_FIELDS.filter (fun f => has_atlas_export parsed || decide (f ≠ "Atlas Cero Plus por PT de DM"))

/-- Field list actually passed to the `render_template` call whose output is
written to the exported PDF (app.py:389-398): the second render overwrites
the first, and it passes `MASTER_FIELDS`, not `dyn_fields_export`. -/
def export_render_fields (parsed : List Rec) : List String :=
  MASTER_FIELDS

/-- Specification-side restatement of the net-premium choice (spec §4.5
step 2, claim C1), written from the words of the spec, to compare with the
embedded `chosen_neta`: the parsed net value if it exceeds the threshold;
otherwise the parsed total value if that exceeds the threshold; otherwise
zero; unparsable inputs treated as absent. -/
def spec_chosen_net (netRaw totalRaw : Option String) : ℚ :=
  let totalPart : ℚ :=
    match to_number totalRaw with
    | some t => if min_total_threshold < t then t else 0
    | none => 0
  match to_number netRaw with
  | some n => if min_total_threshold < n then n else totalPart
  | none => totalPart

/-- Rounding to two decimal places, as in the spec formula
`round(0.16 * (net + surcharges + fees), 2)`. -/
def round2 (q : ℚ) : ℚ :=
  ((round (q * 100) : ℤ) : ℚ) / 100

/-- Key list of a record, in insertion order. -/
def recKeys (r : Rec) : List String :=
  r.map (fun p => p.1)

/-!  Theorems.  First the association-list lemmas shared by the claims. -/

theorem getVal_setVal_self (r : Rec) (k v : String) :
    getVal (setVal r k v) k = some v := by
  induction r with
  | nil => simp [setVal, getVal]
  | cons p rest ih =>
      obtain ⟨a, b⟩ := p
      by_cases h : a = k
      · subst h; simp [setVal, getVal]
      · simp [setVal, getVal, h, ih]

theorem getVal_setVal_ne (r : Rec) (k k2 v : String) (h : k2 ≠ k) :
    getVal (setVal r k v) k2 = getVal r k2 := by
  induction r with
  | nil => simp [setVal, getVal, Ne.symm h]
  | cons p rest ih =>
      obtain ⟨a, b⟩ := p
      by_cases ha : a = k
      · subst ha; simp [setVal, getVal, Ne.symm h]
      · simp [setVal, getVal, ha, ih]

theorem getVal_isSome_eq_hasKey (r : Rec) (k : String) :
    (getVal r k).isSome = hasKey r k := by
  induction r with
  | nil => simp [getVal, hasKey]
  | cons p rest ih =>
      obtain ⟨a, b⟩ := p
      by_cases h : a = k
      · subst h; simp [getVal, hasKey]
      · simp [getVal, hasKey, h, ih]

theorem getVal_append_one_ne (r : Rec) (k k2 v : String) (h : k2 ≠ k) :
    getVal (r ++ [(k, v)]) k2 = getVal r k2 := by
  induction r with
  | nil => simp [getVal, Ne.symm h]
  | cons p rest ih =>
      obtain ⟨a, b⟩ := p
      by_cases ha : a = k2
      · subst ha; simp [getVal]
      · simp [getVal, ha, ih]

theorem getVal_setDefault_self (r : Rec) (k v : String) :
    getVal (setDefault r k v) k = some ((getVal r k).getD v) := by
  unfold setDefault
  by_cases h : hasKey r k = true
  · rw [if_pos h]
    rw [← getVal_isSome_eq_hasKey] at h
    obtain ⟨w, hw⟩ := Option.isSome_iff_exists.mp h
    simp [hw]
  · rw [if_neg h]
    have hnone : getVal r k = none := by
      rw [← getVal_isSome_eq_hasKey] at h
      simpa using h
    rw [hnone]
    induction r with
    | nil => simp [getVal]
    | cons p rest ih =>
        obtain ⟨a, b⟩ := p
        by_cases ha : a = k
        · subst ha; simp [getVal] at hnone
        · simp [getVal, ha] at hnone ⊢
          exact ih (by rw [← getVal_isSome_eq_hasKey]; simp [getVal, ha, hnone]) hnone

theorem getVal_setDefault_ne (r : Rec) (k k2 v : String) (h : k2 ≠ k) :
    getVal (setDefault r k v) k2 = getVal r k2 := by
  unfold setDefault
  by_cases hk : hasKey r k = true
  · rw [if_pos hk]
  · rw [if_neg hk]; exact getVal_append_one_ne r k k2 v h

theorem dollar_ne_na (s : String) : "$" ++ s ≠ "N/A" := by
  intro h
  have h2 : '$' :: s.data = ['N', '/', 'A'] := congrArg String.data h
  injection h2 with h3 h4
  exact absurd h3 (by decide)

theorem hasKey_append (r s : Rec) (k : String) :
    hasKey (r ++ s) k = (hasKey r k || hasKey s k) := by
  induction r with
  | nil => simp [hasKey]
  | cons p rest ih =>
      obtain ⟨a, b⟩ := p
      by_cases h : a = k <;> simp [hasKey, h, ih, Bool.or_assoc]

theorem setVal_append_new (r : Rec) (k v : String) (h : hasKey r k = false) :
    setVal r k v = r ++ [(k, v)] := by
  induction r with
  | nil => simp [setVal]
  | cons p rest ih =>
      obtain ⟨a, b⟩ := p
      rw [show hasKey ((a, b) :: rest) k = (a == k || hasKey rest k) from rfl] at h
      obtain ⟨h1, h2⟩ := Bool.or_eq_false_iff.mp h
      simp [setVal, h1, ih h2]

theorem hasKey_iff_mem (r : Rec) (k : String) :
    hasKey r k = true ↔ k ∈ recKeys r := by
  induction r with
  | nil => simp [hasKey, recKeys]
  | cons p rest ih =>
      obtain ⟨a, b⟩ := p
      by_cases h : a = k
      · subst h; simp [hasKey, recKeys]
      · simp [hasKey, recKeys, h, Ne.symm h, ih]

theorem parse_hdi_keys (e : HdiEnv) : recKeys (parse_hdi e) = canonicalFields := by
  simp [parse_hdi, updateRec, compute_financials, List.foldl, setVal_append_new,
        hasKey, hasKey_append, recKeys, canonicalFields]

theorem parse_qualitas_keys (e : QualEnv) : recKeys (parse_qualitas e) = canonicalFields := by
  simp [parse_qualitas, updateRec, compute_financials, List.foldl, setVal_append_new,
        hasKey, hasKey_append, recKeys, canonicalFields]

theorem parse_ana_keys (e : AnaEnv) : recKeys (parse_ana e) = canonicalFields := by
  simp [parse_ana, updateRec, compute_financials, List.foldl, setVal_append_new,
        hasKey, hasKey_append, recKeys, canonicalFields]

theorem parse_atlas_keys (e : AtlasEnv) : recKeys (parse_atlas e) = canonicalFields := by
  simp [parse_atlas, updateRec, compute_financials, List.foldl, setVal_append_new,
        hasKey, hasKey_append, recKeys, canonicalFields]

theorem chosen_neta_zero_or_gt (pn pt : Option String) :
    chosen_neta pn pt = 0 ∨ min_total_threshold < chosen_neta pn pt := by
  unfold chosen_neta
  cases hpn : to_number pn with
  | some n =>
      by_cases h : min_total_threshold < n
      · right; simpa [Option.any, h] using h
      · cases hpt : to_number pt with
        | some t =>
            by_cases ht : min_total_threshold < t
            · right; simpa [Option.any, h, ht] using ht
            · left; simp [Option.any, h, ht]
        | none => left; simp [Option.any, h]
  | none =>
      cases hpt : to_number pt with
      | some t =>
          by_cases ht : min_total_threshold < t
          · right; simpa [Option.any, ht] using ht
          · left; simp [Option.any, ht]
      | none => left; simp [Option.any]

theorem abs_sub_round2 (q : ℚ) : |q - round2 q| ≤ 1 / 100 := by
  unfold round2
  have h := abs_sub_round (q * 100)
  have e : q - (round (q * 100) : ℚ) / 100 = (q * 100 - round (q * 100)) / 100 := by ring
  rw [e, abs_div]
  have h100 : |(100 : ℚ)| = 100 := by norm_num
  rw [h100]
  linarith

/-- C1: for every combination of raw inputs, the chosen net premium of the
financial normalizer equals the value the spec describes: the parsed net
value if it exceeds `minThreshold` (1000); else the parsed total value if
that exceeds `minThreshold`; else zero; unparsable inputs treated as
absent. -/
theorem C1_chosen_net_matches_spec (pn pt : Option String) :
    chosen_neta pn pt = spec_chosen_net pn pt := by
  unfold chosen_neta spec_chosen_net
  cases hpn : to_number pn with
  | some n =>
      by_cases h : min_total_threshold < n
      · simp [Option.any, h]
      · cases hpt : to_number pt with
        | some t => by_cases ht : min_total_threshold < t <;> simp [Option.any, h, ht]
        | none => simp [Option.any, h]
  | none =>
      cases hpt : to_number pt with
      | some t => by_cases ht : min_total_threshold < t <;> simp [Option.any, ht]
      | none => simp [Option.any]

/-- C2: for all inputs, the computed tax is exactly 16% of
(net + surcharges + fees), hence within one cent of the two-decimal
rounding of that product, and the `IVA` field always renders as a currency
string (never the sentinel), even when the sum is zero. -/
theorem C2_iva_always_currency (pn pt r d : Option String) :
    iva_num pn pt r d = 16 / 100 * (chosen_neta pn pt + rec_num r + der_num d) ∧
    |iva_num pn pt r d -
        round2 (16 / 100 * (chosen_neta pn pt + rec_num r + der_num d))| ≤ 1 / 100 ∧
    getVal (compute_financials pn pt r d) "IVA" =
      some ("$" ++ format_currency (iva_num pn pt r d)) ∧
    getVal (compute_financials pn pt r d) "IVA" ≠ some "N/A" ∧
    getVal (compute_financials none none none none) "IVA" = some "$0.00" := by
  have he : iva_num pn pt r d = 16 / 100 * (chosen_neta pn pt + rec_num r + der_num d) := by
    unfold iva_num; ring
  refine ⟨he, ?_, rfl, ?_, by decide⟩
  · rw [← he]; exact abs_sub_round2 _
  · rw [show getVal (compute_financials pn pt r d) "IVA" =
        some ("$" ++ format_currency (iva_num pn pt r d)) from rfl]
    intro hc
    exact dollar_ne_na _ (Option.some.inj hc)

/-- C3: for all inputs, the computed total is exactly
net + surcharges + fees + tax at the numeric level, and the net, fees and
total fields render as the sentinel when their underlying value is ≤ 0 and
as currency strings otherwise; in particular net="$0.00", total="$0.00"
yields tax "$0.00" and total "N/A". -/
theorem C3_total_exact_and_formatting (pn pt r d : Option String) :
    total_num pn pt r d =
      chosen_neta pn pt + rec_num r + der_num d + iva_num pn pt r d ∧
    getVal (compute_financials pn pt r d) "Prima Neta" =
      some (if 0 < chosen_neta pn pt
            then "$" ++ format_currency (chosen_neta pn pt) else "N/A") ∧
    getVal (compute_financials pn pt r d) "Derechos de Póliza" =
      some (if 0 < der_num d then "$" ++ format_currency (der_num d) else "N/A") ∧
    getVal (compute_financials pn pt r d) "Prima Total" =
      some (if 0 < total_num pn pt r d
            then "$" ++ format_currency (total_num pn pt r d) else "N/A") ∧
    getVal (compute_financials (some "$0.00") (some "$0.00") none none) "IVA" = some "$0.00" ∧
    getVal (compute_financials (some "$0.00") (some "$0.00") none none) "Prima Total" =
      some "N/A" := by
  exact ⟨rfl, rfl, rfl, rfl, by decide, by decide⟩

/-- C4: a surcharge strictly greater than `surchargeCap` (2000) is
normalized to zero regardless of all other inputs; a zero surcharge renders
as the literal string `$ 0` (distinct from the sentinel `N/A`), while a
positive capped surcharge renders as a currency string. -/
theorem C4_surcharge_cap_and_rendering (pn pt r d : Option String) :
    (∀ v : ℚ, to_number r = some v → recargos_cap < v → rec_num r = 0) ∧
    (rec_num r = 0 →
      getVal (compute_financials pn pt r d) "Recargos" = some "$ 0") ∧
    (0 < rec_num r →
      getVal (compute_financials pn pt r d) "Recargos" =
        some ("$" ++ format_currency (rec_num r))) := by
  refine ⟨?_, ?_, ?_⟩
  · intro v hv hgt
    unfold rec_num
    rw [hv]
    simp [hgt]
  · intro h0
    rw [show getVal (compute_financials pn pt r d) "Recargos" =
        some (if 0 < rec_num r then "$" ++ format_currency (rec_num r) else "$ 0") from rfl]
    rw [h0]
    norm_num
  · intro hpos
    rw [show getVal (compute_financials pn pt r d) "Recargos" =
        some (if 0 < rec_num r then "$" ++ format_currency (rec_num r) else "$ 0") from rfl]
    rw [if_pos hpos]

/-- C4 witness: the spec scenario surcharges="$5,000.00" with cap 2000 is
normalized to 0 and renders as the literal `$ 0`. -/
theorem C4_surcharge_cap_and_rendering_witness :
    rec_num (some "$5,000.00") = 0 ∧
    getVal (compute_financials none none (some "$5,000.00") none) "Recargos" = some "$ 0" := by
  have h := C4_surcharge_cap_and_rendering none none (some "$5,000.00") none
  have h0 : rec_num (some "$5,000.00") = 0 :=
    h.1 5000 (by decide) (by norm_num [recargos_cap])
  exact ⟨h0, h.2.1 h0⟩

/-- C10: for every input, the chosen net premium is either exactly zero or
strictly greater than `minThreshold` (1000), never a positive value at or
below the threshold; accordingly the rendered net-premium field is either
the sentinel or a currency string of a value exceeding the threshold. -/
theorem C10_chosen_net_zero_or_above_threshold (pn pt r d : Option String) :
    (chosen_neta pn pt = 0 ∧
      getVal (compute_financials pn pt r d) "Prima Neta" = some "N/A") ∨
    (min_total_threshold < chosen_neta pn pt ∧
      getVal (compute_financials pn pt r d) "Prima Neta" =
        some ("$" ++ format_currency (chosen_neta pn pt))) := by
  have hPN : getVal (compute_financials pn pt r d) "Prima Neta" =
      some (if 0 < chosen_neta pn pt
            then "$" ++ format_currency (chosen_neta pn pt) else "N/A") := rfl
  rcases chosen_neta_zero_or_gt pn pt with h | h
  · left
    refine ⟨h, ?_⟩
    rw [hPN, h]
    norm_num
  · right
    refine ⟨h, ?_⟩
    have hpos : 0 < chosen_neta pn pt := by
      have : (0 : ℚ) < min_total_threshold := by norm_num [min_total_threshold]
      linarith
    rw [hPN, if_pos hpos]

/-- C6 counterexample: the text "ANA QUÁLITAS" is not selected by the
provider-D rule, contains the accented Qualitas brand token, and yet the
classifier returns ANA — contradicting the claim that ANA is returned only
when none of the other providers' brand tokens (accented or unaccented)
are present. -/
theorem C6_counterexample_accented_token :
    identify_company "ANA QUÁLITAS" = some "ANA" ∧
    strContains (pyUpper "ANA QUÁLITAS") "QUÁLITAS" = true ∧
    (strContains (pyUpper "ANA QUÁLITAS") "ATLAS" &&
      !strContains (pyUpper "ANA QUÁLITAS") "SEGUROS ATLAS") = false := by
  exact ⟨by decide, by decide, by decide⟩

/-- C6 (amended): for every text not selected by the provider-D rule, the
classifier returns ANA if and only if the ANA brand token is present and
none of HDI, ATLAS and the unaccented QUALITAS token are present in the
upper-cased text; the accented Quálitas token is not excluded. -/
theorem C6_amended_ana_rule (t : String)
    (hD : (strContains (pyUpper t) "ATLAS" &&
            !strContains (pyUpper t) "SEGUROS ATLAS") = false) :
    identify_company t = some "ANA" ↔
      (strContains (pyUpper t) "ANA" = true ∧
       strContains (pyUpper t) "HDI" = false ∧
       strContains (pyUpper t) "ATLAS" = false ∧
       strContains (pyUpper t) "QUALITAS" = false) := by
  cases hA : strContains (pyUpper t) "ANA" <;>
    cases hH : strContains (pyUpper t) "HDI" <;>
      cases hT : strContains (pyUpper t) "ATLAS" <;>
        cases hQ : strContains (pyUpper t) "QUALITAS" <;>
          simp_all [identify_company] <;>
            (try split_ifs) <;> simp_all

/-- C6 witness: a plain ANA text with no other brand token classifies as
ANA under the amended rule. -/
theorem C6_amended_ana_rule_witness :
    identify_company "ANA SEGUROS insurance" = some "ANA" :=
  (C6_amended_ana_rule "ANA SEGUROS insurance" (by decide)).mpr (by decide)

/-- C7: any text containing both the Atlas brand token and the full legal
name "SEGUROS ATLAS" is not selected by rule 1 (the classifier never
returns Atlas for it), and when none of the later rules' tokens are
present the result is Unknown. -/
theorem C7_atlas_legal_name_quirk (t : String)
    (h1 : strContains (pyUpper t) "ATLAS" = true)
    (h2 : strContains (pyUpper t) "SEGUROS ATLAS" = true) :
    (strContains (pyUpper t) "ATLAS" &&
      !strContains (pyUpper t) "SEGUROS ATLAS") = false ∧
    identify_company t ≠ some "Atlas" ∧
    (strContains (pyUpper t) "HDI SEGUROS" = false →
     strContains (pyUpper t) "HDI" = false →
     strContains (pyUpper t) "QUÁLITAS" = false →
     strContains (pyUpper t) "QUALITAS" = false →
     identify_company t = none) := by
  refine ⟨by simp [h1, h2], ?_, ?_⟩
  · cases hs : strContains (pyUpper t) "HDI SEGUROS" <;>
      cases hh : strContains (pyUpper t) "HDI" <;>
        cases q1 : strContains (pyUpper t) "QUÁLITAS" <;>
          cases q2 : strContains (pyUpper t) "QUALITAS" <;>
            simp [identify_company, h1, h2, hs, hh, q1, q2]
  · intro hs hh q1 q2
    simp [identify_company, h1, h2, hs, hh, q1, q2]

/-- C7 witness: the bare legal name "SEGUROS ATLAS" contains the Atlas
token and its own legal name, and classifies as Unknown. -/
theorem C7_atlas_legal_name_quirk_witness :
    identify_company "SEGUROS ATLAS" = none :=
  (C7_atlas_legal_name_quirk "SEGUROS ATLAS" (by decide) (by decide)).2.2
    (by decide) (by decide) (by decide) (by decide)

/-- C5 counterexample: the remote-AI backend violates the every-key
invariant — even on a successful extraction its HDI record has no
"Accidente al conductor" key, and on a failed extraction the record keeps
only the provider name. -/
theorem C5_counterexample_ai_missing_key :
    "Accidente al conductor" ∈ canonicalFields ∧
    hasKey (extract_hdi_ai
      (some ⟨none, none, none, none, none, none, none,
             none, none, none, none, none, none⟩)) "Accidente al conductor" = false ∧
    hasKey (extract_hdi_ai none) "Prima Neta" = false := by
  exact ⟨by decide, by decide, by decide⟩

/-- C5 (amended): every record assembled by the rule-based extraction
backend contains every canonical field key, for every capture environment;
the remote-AI backend does not share this invariant. -/
theorem C5_amended_rule_based_all_keys
    (eh : HdiEnv) (eqv : QualEnv) (ea : AnaEnv) (et : AtlasEnv) :
    canonicalFields.all (fun f => hasKey (parse_hdi eh) f) = true ∧
    canonicalFields.all (fun f => hasKey (parse_qualitas eqv) f) = true ∧
    canonicalFields.all (fun f => hasKey (parse_ana ea) f) = true ∧
    canonicalFields.all (fun f => hasKey (parse_atlas et) f) = true := by
  refine ⟨?_, ?_, ?_, ?_⟩ <;> rw [List.all_eq_true] <;> intro f hf
  · rw [hasKey_iff_mem, parse_hdi_keys]; exact hf
  · rw [hasKey_iff_mem, parse_qualitas_keys]; exact hf
  · rw [hasKey_iff_mem, parse_ana_keys]; exact hf
  · rw [hasKey_iff_mem, parse_atlas_keys]; exact hf

/-- C8: with a batch holding a single HDI record (no Atlas record), the
suppressed lists `dyn_fields` and `dyn_fields_export` correctly drop the
Atlas-only field, but the render call that actually produces the exported
PDF is passed `MASTER_FIELDS`, so the exported report still carries the
Atlas-only field — the computed `dyn_fields_export` is discarded. -/
theorem C8_export_field_list_not_suppressed :
    has_atlas_export [[("company", "HDI Seguros")]] = false ∧
    "Atlas Cero Plus por PT de DM" ∉ dyn_fields [[("company", "HDI Seguros")]] ∧
    "Atlas Cero Plus por PT de DM" ∉ dyn_fields_export [[("company", "HDI Seguros")]] ∧
    "Atlas Cero Plus por PT de DM" ∈ export_render_fields [[("company", "HDI Seguros")]] ∧
    "Atlas Cero Plus por PT de DM" ∈ dyn_fields [[("company", "Seguros Atlas")]] := by
  exact ⟨by decide, by decide, by decide, by decide, by decide⟩

/-- C9 counterexample: the assembler sets the Atlas-only bonus field
"Atlas Cero Plus por PT de DM" to AMPARADA even on a record of another
provider, contradicting the claim that it is set only on records of the
matching provider and left unset or sentinel elsewhere. -/
theorem C9_counterexample_bonus_on_all_providers :
    getVal [("company", "HDI Seguros")] "company" ≠ some "Seguros Atlas" ∧
    getVal (apply_overrides [("company", "HDI Seguros")])
      "Atlas Cero Plus por PT de DM" = some "AMPARADA" := by
  exact ⟨by decide, by decide⟩

/-- C9 (amended): the fixed overrides set the accident benefit and both
deductible fields to their constants on every record regardless of
provider; the travel-assistance default applies only when the extractor
found none; the Atlas bonus field is likewise set to AMPARADA on every
record regardless of provider (it is only hidden later by column
suppression); the one provider-conditional override is the engine-damage
field, set to AMPARADA exactly on Seguros Atlas records and left
unchanged on all others. -/
theorem C9_amended_overrides (row : Rec) :
    getVal (apply_overrides row) "Accidente al conductor" = some "$100,000.00" ∧
    getVal (apply_overrides row) "Deducible - DM" = some "3%" ∧
    getVal (apply_overrides row) "Deducible - RT" = some "5%" ∧
    getVal (apply_overrides row) "Atlas Cero Plus por PT de DM" = some "AMPARADA" ∧
    getVal (apply_overrides row) "Asistencia Viajes" =
      some ((getVal row "Asistencia Viajes").getD "AMPARADA") ∧
    getVal (apply_overrides row) "Desbielamiento por agua al motor" =
      (if getVal row "company" = some "Seguros Atlas" then some "AMPARADA"
       else getVal row "Desbielamiento por agua al motor") := by
  by_cases hc : getVal row "company" = some "Seguros Atlas" <;>
    simp [apply_overrides, ite_self, getVal_setVal_self, getVal_setVal_ne,
          getVal_setDefault_self, getVal_setDefault_ne, hc]
